import Mathlib

/-!
Shallow embedding of the announcement-bot core (`src/main.py`):
the announcement model (`get_item_id`, `format_announcement`), the diff
engine (`announcements_since_last`), the in-memory state
(`WATCHING` / `LAST_SEEN` / `COOKIE_EXPIRED_NOTIFIED`), the dispatch loop
(`daily_job`, `notify_cookie_expired`), the command handlers
(`watch_command`, `unwatch_command`) and the state loader (`load_state`).

Feed items are loosely-typed records whose fields may be present or absent;
we model each relevant field as `Option String`.  Python string slicing
`s[:n]` and `s.strip()` operate on characters, so they are modelled over
`String.data` (`takeChars`, `trimChars`).  The outbound messaging
transport is modelled as an oracle `send : Int → String → Bool` telling
whether a given send call succeeds; a `false` result models the transport
call raising an exception (the message is not delivered).  Observable
effects of a run (messages sent, state saves, log lines, replies) are
collected in an event trace.
-/

/-- Python slice `s[:n]`: the first `n` characters. -/
def takeChars (n : Nat) (s : String) : String := ⟨s.data.take n⟩

/-- Python `s.strip()`: drop whitespace from both ends. -/
def trimChars (s : String) : String :=
  ⟨((s.data.dropWhile Char.isWhitespace).reverse.dropWhile Char.isWhitespace).reverse⟩

/-- A feed item record: any subset of these fields may be present
(`none` models an absent key, matching `item.get(...)` returning `None`). -/
structure Item where
  id : Option String := none
  uuid : Option String := none
  messageId : Option String := none
  dateCreated : Option String := none
  createdAt : Option String := none
  title : Option String := none
  subject : Option String := none
  body : Option String := none
  message : Option String := none
  text : Option String := none
deriving DecidableEq, Repr

/-- Python truthiness chaining `x or y` for an optional string `x`:
`None` and the empty string are falsy, so both fall through to `y`. -/
def orNE (a : Option String) (b : String) : String :=
  match a with
  | some s => if s = "" then b else s
  | none => b

/-- `get_item_id` (src/main.py:109-117): first truthy field among
`id`, `uuid`, `messageId`, `dateCreated`, `createdAt`, falling back to
`title + "|" + body[:30]` where an absent/empty body contributes `""`. -/
def get_item_id (it : Item) : String :=
  orNE it.id (orNE it.uuid (orNE it.messageId (orNE it.dateCreated (orNE it.createdAt
    ((it.title.getD "") ++ "|" ++
      (match it.body with
       | some b => if b = "" then "" else takeChars 30 b
       | none => ""))))))

/-- `format_announcement` (src/main.py:120-134). -/
def format_announcement (it : Item) : String :=
  let title := orNE it.title (orNE it.subject "Announcement")
  let body0 := orNE it.body (orNE it.message (orNE it.text ""))
  let date := orNE it.dateCreated (orNE it.createdAt "")
  let body1 := trimChars body0
  let body := if body1.data.length > 2500 then takeChars 2500 body1 ++ "…" else body1
  let msg0 := "🧠 " ++ title
  let msg1 := if date ≠ "" then msg0 ++ "\n🗓 " ++ date else msg0
  let msg2 := if body ≠ "" then msg1 ++ "\n\n" ++ body else msg1
  trimChars msg2

/-- The collection loop of `announcements_since_last`
(src/main.py:152-156): walk the newest-first list, collecting items until
one matches `lastSeenId` (the match itself excluded); collect everything
when no item matches. -/
def collectUntil (lastSeenId : String) : List Item → List Item
  | [] => []
  | it :: rest =>
      if get_item_id it = lastSeenId then []
      else it :: collectUntil lastSeenId rest

/-- `announcements_since_last` (src/main.py:137-159): returns
`(new_items_oldest_first, newest_id)`. -/
def announcements_since_last (items : List Item) (lastSeenId : Option String) :
    List Item × String :=
  match items with
  | [] => ([], "")
  | first :: _ =>
    let newestId := get_item_id first
    match lastSeenId with
    | none => ([], newestId)
    | some l => ((collectUntil l items).reverse, newestId)

/-- First non-empty entry of a list of optional strings. -/
def firstNE : List (Option String) → Option String
  | [] => none
  | o :: rest =>
    match o with
    | some s => if s = "" then firstNE rest else some s
    | none => firstNE rest

/-- A right-nested `orNE` chain over a list of optional strings. -/
def orNEChain : List (Option String) → String → String
  | [], b => b
  | o :: rest, b => orNE o (orNEChain rest b)

/-- Spec-side characterisation (from §4.1 of the spec, not from the code):
the first non-empty value among the five explicit identity fields. -/
def specFirstNonEmptyIdField (it : Item) : Option String :=
  firstNE [it.id, it.uuid, it.messageId, it.dateCreated, it.createdAt]

lemma collectUntil_eq_self {l : String} {items : List Item}
    (h : l ∉ items.map get_item_id) : collectUntil l items = items := by
  induction items with
  | nil => rfl
  | cons it rest ih =>
    simp only [List.map_cons, List.mem_cons, not_or] at h
    have hne : ¬ get_item_id it = l := fun he => h.1 he.symm
    simp only [collectUntil, if_neg hne, ih h.2]

lemma collectUntil_eq_take {l : String} {items : List Item} {k : ℕ}
    (hnot : l ∉ (items.map get_item_id).take k)
    (hk : (items.map get_item_id)[k]? = some l) :
    collectUntil l items = items.take k := by
  induction items generalizing k with
  | nil => simp at hk
  | cons it rest ih =>
    cases k with
    | zero =>
      simp only [List.map_cons, List.getElem?_cons_zero, Option.some.injEq] at hk
      simp [collectUntil, hk]
    | succ k =>
      simp only [List.map_cons, List.take_succ_cons, List.mem_cons, not_or] at hnot
      simp only [List.map_cons, List.getElem?_cons_succ] at hk
      have hne : ¬ get_item_id it = l := fun he => hnot.1 he.symm
      simp only [collectUntil, if_neg hne, List.take_succ_cons, ih hnot.2 hk]

/-- C1: for a non-empty newest-first batch and a provided marker,
`announcements_since_last` returns `newestId = identity(batch[0])`; when
`k` is the first index whose identity equals the marker, `newItems` is the
prefix `batch[0..k-1]` reversed to oldest-first; when no identity equals
the marker, `newItems` is the whole batch reversed to oldest-first. -/
theorem diff_with_marker (items : List Item) (first : Item) (rest : List Item)
    (l : String) (hitems : items = first :: rest) :
    (announcements_since_last items (some l)).2 = get_item_id first ∧
    (∀ k : ℕ, l ∉ (items.map get_item_id).take k →
      (items.map get_item_id)[k]? = some l →
      (announcements_since_last items (some l)).1 = (items.take k).reverse) ∧
    (l ∉ items.map get_item_id →
      (announcements_since_last items (some l)).1 = items.reverse) := by
  subst hitems
  refine ⟨rfl, ?_, ?_⟩
  · intro k hnot hk
    simp only [announcements_since_last, collectUntil_eq_take hnot hk]
  · intro h
    simp only [announcements_since_last, collectUntil_eq_self h]

def wItemA : Item := { id := some "3", title := some "C" }
def wItemB : Item := { id := some "2", title := some "B" }
def wItemC : Item := { id := some "1", title := some "A" }

/-- Witness for C1 at the spec's own scenario: batch `[C,B,A]` with ids
`["3","2","1"]` and marker `"1"` yields the prefix of length 2 reversed
(delivery order `B` then `C`) and newest id `"3"`; a stale marker yields
the whole batch reversed. -/
theorem diff_with_marker_witness :
    (announcements_since_last [wItemA, wItemB, wItemC] (some "1")).2
        = get_item_id wItemA ∧
    (announcements_since_last [wItemA, wItemB, wItemC] (some "1")).1
        = ([wItemA, wItemB, wItemC].take 2).reverse ∧
    (announcements_since_last [wItemA, wItemB, wItemC] (some "stale")).1
        = [wItemA, wItemB, wItemC].reverse := by
  refine ⟨(diff_with_marker _ wItemA [wItemB, wItemC] "1" rfl).1,
    (diff_with_marker _ wItemA [wItemB, wItemC] "1" rfl).2.1 2 (by decide) (by decide),
    (diff_with_marker _ wItemA [wItemB, wItemC] "stale" rfl).2.2 (by decide)⟩

/-- C2: for a non-empty batch and an absent marker,
`announcements_since_last` returns no new items and
`newestId = identity(batch[0])`: the first-time subscriber is baselined
without any backlog. -/
theorem diff_absent_marker (items : List Item) (first : Item) (rest : List Item)
    (hitems : items = first :: rest) :
    announcements_since_last items none = ([], get_item_id first) := by
  subst hitems; rfl

/-- Witness for C2 at a concrete batch. -/
theorem diff_absent_marker_witness :
    announcements_since_last [wItemA, wItemB] none = ([], get_item_id wItemA) :=
  diff_absent_marker _ wItemA [wItemB] rfl

lemma orNEChain_of_firstNE_some {l : List (Option String)} {s : String}
    (b : String) (h : firstNE l = some s) : orNEChain l b = s := by
  induction l with
  | nil => simp [firstNE] at h
  | cons o rest ih =>
    cases o with
    | none =>
      simp only [firstNE] at h
      simp only [orNEChain, orNE]
      exact ih h
    | some x =>
      by_cases hx : x = ""
      · simp only [firstNE, if_pos hx] at h
        simp only [orNEChain, orNE, if_pos hx]
        exact ih h
      · simp only [firstNE, if_neg hx] at h
        cases h
        simp only [orNEChain, orNE, if_neg hx]

lemma get_item_id_eq_chain (it : Item) :
    get_item_id it =
      orNEChain [it.id, it.uuid, it.messageId, it.dateCreated, it.createdAt]
        ((it.title.getD "") ++ "|" ++
          (match it.body with
           | some b => if b = "" then "" else takeChars 30 b
           | none => "")) := rfl

/-- C7: `get_item_id` returns the first non-empty value among the `id`,
`uuid`, `messageId`, `dateCreated` and `createdAt` fields; when all five
are absent it returns `title ++ "|" ++ (first 30 chars of body)`, with the
empty string standing in for an absent title or body; and it is
deterministic (equal records give equal identities). -/
theorem get_item_id_spec (a b : Item) (s : String) :
    (specFirstNonEmptyIdField a = some s → get_item_id a = s) ∧
    ((a.id = none ∧ a.uuid = none ∧ a.messageId = none ∧
        a.dateCreated = none ∧ a.createdAt = none) →
      get_item_id a = (a.title.getD "") ++ "|" ++ takeChars 30 (a.body.getD "")) ∧
    (a = b → get_item_id a = get_item_id b) := by
  refine ⟨?_, ?_, fun h => h ▸ rfl⟩
  · intro h
    rw [get_item_id_eq_chain]
    exact orNEChain_of_firstNE_some _ h
  · rintro ⟨h1, h2, h3, h4, h5⟩
    simp only [get_item_id, h1, h2, h3, h4, h5, orNE]
    cases hb : a.body with
    | none => simp [takeChars]
    | some bd =>
      by_cases hbe : bd = "" <;> simp [hbe, takeChars]

def wItemId : Item := { uuid := some "u-17", title := some "T" }
def wItemFallback : Item :=
  { title := some "Maintenance", body := some "All systems down tonight" }

/-- Witness for C7: a record identified by its `uuid` field, and a record
with no identity fields falling back to `title|body[:30]`. -/
theorem get_item_id_spec_witness :
    get_item_id wItemId = "u-17" ∧
    get_item_id wItemFallback =
      (wItemFallback.title.getD "") ++ "|" ++ takeChars 30 (wItemFallback.body.getD "") := by
  constructor
  · exact (get_item_id_spec wItemId wItemId "u-17").1 (by decide)
  · exact (get_item_id_spec wItemFallback wItemFallback "").2.1 ⟨rfl, rfl, rfl, rfl, rfl⟩

/-- Python `set.add`: insert if absent (modelled on a duplicate-free list). -/
def sadd (x : Int) (l : List Int) : List Int :=
  if x ∈ l then l else l ++ [x]

/-- Python `set.discard`: remove every occurrence. -/
def sdiscard (x : Int) (l : List Int) : List Int :=
  l.filter (· ≠ x)

/-- Python dict lookup `d.get(k)`. -/
def mlookup : List (Int × String) → Int → Option String
  | [], _ => none
  | (k, v) :: rest, c => if k = c then some v else mlookup rest c

/-- Python dict assignment `d[k] = v` (overwrite in place or append). -/
def minsert (c : Int) (v : String) : List (Int × String) → List (Int × String)
  | [] => [(c, v)]
  | (k, w) :: rest => if k = c then (c, v) :: rest else (k, w) :: minsert c v rest

/-- The module-level mutable state of the bot (src/main.py:56-58):
`WATCHING`, `LAST_SEEN`, `COOKIE_EXPIRED_NOTIFIED`. -/
structure BotState where
  watching : List Int
  lastSeen : List (Int × String)
  cookieExpiredNotified : List Int
deriving DecidableEq, Repr

/-- Observable effects of a run: an outbound `send_message` that succeeded,
a `save_state` write, a `print` log line, and a `reply_text` to the caller. -/
inductive Ev
  | sent (chat : Int) (msg : String)
  | saved
  | logged (msg : String)
  | replied (msg : String)
deriving DecidableEq, Repr

/-- Outcome of `fetch_announcements` as seen by its callers: a successful
batch, the sentinel `RuntimeError("WQ_AUTH_EXPIRED")`, some other
`RuntimeError`, or any other exception. -/
inductive Fetch
  | ok (items : List Item)
  | authExpired
  | otherRuntime (msg : String)
  | raised
deriving DecidableEq, Repr

def watchOkText : String := "✅ Daily updates ON (runs at 00:00 US Eastern)."
def watchFailText : String :=
  "⚠️ Cannot watch: WorldQuant session expired. Refresh WQ_COOKIE in .env and restart."
def unwatchText : String := "🛑 Daily updates OFF."
def expiredText : String :=
  "⚠️ WorldQuant session expired.\n\n"
  ++ "Daily updates have been turned OFF to avoid spam.\n"
  ++ "Fix: log in to BRAIN → copy a fresh `t=...` cookie → update `.env` → restart the bot → /watch again."

/-- `watch_command` (src/main.py:231-251): add the chat to `WATCHING`,
discard it from `COOKIE_EXPIRED_NOTIFIED`, then fetch to set the baseline.
On `WQ_AUTH_EXPIRED` the chat is discarded from `WATCHING` again, state is
saved and an error reply is sent; on a successful fetch the baseline is
recorded (when the batch is non-empty), state is saved and a success reply
is sent.  A `RuntimeError` with a different message falls through the
`except` block to the success path without a baseline; any other exception
propagates (no save, no reply), leaving the chat added. -/
def watch_command (fetch : Fetch) (st : BotState) (chat : Int) : BotState × List Ev :=
  let w1 := sadd chat st.watching
  let n1 := sdiscard chat st.cookieExpiredNotified
  match fetch with
  | .ok items =>
    let ls1 :=
      match items with
      | [] => st.lastSeen
      | first :: _ => minsert chat (get_item_id first) st.lastSeen
    ({ watching := w1, lastSeen := ls1, cookieExpiredNotified := n1 },
      [Ev.saved, Ev.replied watchOkText])
  | .authExpired =>
    ({ watching := sdiscard chat w1, lastSeen := st.lastSeen, cookieExpiredNotified := n1 },
      [Ev.saved, Ev.replied watchFailText])
  | .otherRuntime _ =>
    ({ watching := w1, lastSeen := st.lastSeen, cookieExpiredNotified := n1 },
      [Ev.saved, Ev.replied watchOkText])
  | .raised =>
    ({ watching := w1, lastSeen := st.lastSeen, cookieExpiredNotified := n1 }, [])

/-- `unwatch_command` (src/main.py:254-258). -/
def unwatch_command (st : BotState) (chat : Int) : BotState × List Ev :=
  ({ st with watching := sdiscard chat st.watching }, [Ev.saved, Ev.replied unwatchText])

lemma not_mem_sdiscard (x : Int) (l : List Int) : x ∉ sdiscard x l := by
  simp [sdiscard]

/-- C5: when the baseline fetch of the subscribe flow fails with
`AuthExpired`, the chat is not in `WATCHING` afterwards (the subscription
is rolled back, not added) and the caller gets the credentials-error reply
rather than the success confirmation. -/
theorem watch_auth_expired_rollback (st : BotState) (chat : Int) :
    chat ∉ (watch_command .authExpired st chat).1.watching ∧
    Ev.replied watchFailText ∈ (watch_command .authExpired st chat).2 ∧
    Ev.replied watchOkText ∉ (watch_command .authExpired st chat).2 := by
  refine ⟨not_mem_sdiscard chat _, by simp [watch_command], ?_⟩
  simp only [watch_command, List.mem_cons, List.mem_singleton]
  rintro (h | h | h) <;> simp_all [watchOkText, watchFailText]

/-- C9: the subscribe flow discards the chat from `COOKIE_EXPIRED_NOTIFIED`
before fetching, and a failed (`AuthExpired`) subscribe does not restore
it: afterwards the chat is in neither `WATCHING` nor
`COOKIE_EXPIRED_NOTIFIED`, so for a previously-notified chat the
rolled-back state differs from the pre-call state. -/
theorem watch_auth_expired_notified_cleared (st : BotState) (chat : Int)
    (h : chat ∈ st.cookieExpiredNotified) :
    chat ∉ (watch_command .authExpired st chat).1.watching ∧
    chat ∉ (watch_command .authExpired st chat).1.cookieExpiredNotified ∧
    (watch_command .authExpired st chat).1 ≠ st := by
  refine ⟨not_mem_sdiscard chat _, not_mem_sdiscard chat _, fun he => ?_⟩
  have : chat ∈ (watch_command .authExpired st chat).1.cookieExpiredNotified := by
    rw [he]; exact h
  exact not_mem_sdiscard chat _ this

/-- Witness for C9: a previously-notified chat subscribing while the
session is expired ends up outside both sets, and the state changed. -/
theorem watch_auth_expired_notified_cleared_witness :
    (7 : Int) ∈ (BotState.mk [] [] [7]).cookieExpiredNotified ∧
    (7 : Int) ∉ (watch_command .authExpired (BotState.mk [] [] [7]) 7).1.watching ∧
    (7 : Int) ∉ (watch_command .authExpired (BotState.mk [] [] [7]) 7).1.cookieExpiredNotified ∧
    (watch_command .authExpired (BotState.mk [] [] [7]) 7).1 ≠ BotState.mk [] [] [7] := by
  refine ⟨by decide, ?_⟩
  have h := watch_auth_expired_notified_cleared (BotState.mk [] [] [7]) 7 (by decide)
  exact ⟨h.1, h.2.1, h.2.2⟩

/-- C10: `unwatch_command` mutates only `WATCHING` membership: afterwards
the chat is not watching, every other chat's watching status is unchanged,
and `LAST_SEEN` and `COOKIE_EXPIRED_NOTIFIED` are untouched. -/
theorem unwatch_frame (st : BotState) (chat : Int) :
    chat ∉ (unwatch_command st chat).1.watching ∧
    (∀ c : Int, c ≠ chat →
      (c ∈ (unwatch_command st chat).1.watching ↔ c ∈ st.watching)) ∧
    (unwatch_command st chat).1.lastSeen = st.lastSeen ∧
    (unwatch_command st chat).1.cookieExpiredNotified = st.cookieExpiredNotified := by
  refine ⟨not_mem_sdiscard chat _, fun c hc => ?_, rfl, rfl⟩
  simp [unwatch_command, sdiscard, hc]

/-- The inner send loop of `daily_job` (src/main.py:201-202): send each new
item in order; a failing send raises, so later items are not sent and the
loop reports failure.  Returns the successful-send events and whether the
whole loop completed. -/
def sendAll (send : Int → String → Bool) (chat : Int) : List Item → List Ev × Bool
  | [] => ([], true)
  | it :: rest =>
    if send chat (format_announcement it) then
      let r := sendAll send chat rest
      (Ev.sent chat (format_announcement it) :: r.1, r.2)
    else ([], false)

/-- The per-subscriber loop of `daily_job` (src/main.py:192-204): for each
watching chat look up its marker, diff, baseline silently when the marker
is absent, otherwise send the new items and update the marker.  A raising
send aborts the loop: the current chat's marker is not updated and the
remaining chats are not processed.  Returns the updated `LAST_SEEN`, the
events, and whether the loop completed. -/
def dailyLoop (send : Int → String → Bool) (items : List Item) :
    List Int → List (Int × String) → List (Int × String) × List Ev × Bool
  | [], ls => (ls, [], true)
  | chat :: rest, ls =>
    let last := mlookup ls chat
    let res := announcements_since_last items last
    match last with
    | none => dailyLoop send items rest (minsert chat res.2 ls)
    | some _ =>
      let sr := sendAll send chat res.1
      if sr.2 then
        let r := dailyLoop send items rest (minsert chat res.2 ls)
        (r.1, sr.1 ++ r.2.1, r.2.2)
      else (ls, sr.1, false)

/-- The loop of `notify_cookie_expired` (src/main.py:163-174): for each
watching chat not yet notified, mark it notified and send the one-time
notice.  A raising send aborts the loop (the current chat stays marked).
Returns the updated `COOKIE_EXPIRED_NOTIFIED`, the events, and whether the
loop completed. -/
def notifyLoop (send : Int → String → Bool) :
    List Int → List Int → List Int × List Ev × Bool
  | [], n => (n, [], true)
  | chat :: rest, n =>
    if chat ∈ n then notifyLoop send rest n
    else
      let n1 := sadd chat n
      if send chat expiredText then
        let r := notifyLoop send rest n1
        (r.1, Ev.sent chat expiredText :: r.2.1, r.2.2)
      else (n1, [], false)

/-- `notify_cookie_expired` (src/main.py:162-176): notify every watching
chat once, then clear `WATCHING` and save.  When a notice send raises, the
clearing and the save do not happen and the failure propagates (`false`). -/
def notify_cookie_expired (send : Int → String → Bool) (st : BotState) :
    BotState × List Ev × Bool :=
  let r := notifyLoop send st.watching st.cookieExpiredNotified
  if r.2.2 then
    ({ watching := [], lastSeen := st.lastSeen, cookieExpiredNotified := r.1 },
      r.2.1 ++ [Ev.saved], true)
  else
    ({ st with cookieExpiredNotified := r.1 }, r.2.1, false)

/-- `daily_job` (src/main.py:182-215): no-op when nobody is watching;
otherwise act on the fetch outcome.  On a successful non-empty batch run
the per-subscriber loop; when it completes, save; when a send raised, the
`except Exception` handler only logs (no save).  On `WQ_AUTH_EXPIRED` log
and run the circuit breaker; other errors are logged. -/
def daily_job (send : Int → String → Bool) (fetch : Fetch) (st : BotState) :
    BotState × List Ev :=
  if st.watching = [] then (st, [])
  else
    match fetch with
    | .ok items =>
      if items = [] then (st, [])
      else
        let r := dailyLoop send items st.watching st.lastSeen
        if r.2.2 then ({ st with lastSeen := r.1 }, r.2.1 ++ [Ev.saved])
        else ({ st with lastSeen := r.1 }, r.2.1 ++ [Ev.logged "Daily job error"])
    | .authExpired =>
      let r := notify_cookie_expired send st
      (r.1, Ev.logged "Daily job: WQ auth expired" :: r.2.1)
    | .otherRuntime m => (st, [Ev.logged ("Daily job runtime error: " ++ m)])
    | .raised => (st, [Ev.logged "Daily job error"])

lemma mlookup_minsert (c : Int) (v : String) (m : List (Int × String)) (x : Int) :
    mlookup (minsert c v m) x = if x = c then some v else mlookup m x := by
  induction m with
  | nil =>
    simp only [minsert, mlookup]
    by_cases hx : x = c
    · subst hx; simp
    · rw [if_neg (fun h : c = x => hx h.symm), if_neg hx]
  | cons kv rest ih =>
    obtain ⟨k, w⟩ := kv
    simp only [minsert]
    by_cases hk : k = c
    · subst hk
      simp only [if_pos rfl, mlookup]
      by_cases hx : x = k
      · subst hx; simp
      · rw [if_neg (fun h : k = x => hx h.symm), if_neg hx,
          if_neg (fun h : k = x => hx h.symm)]
    · rw [if_neg hk]
      simp only [mlookup, ih]
      by_cases hx : x = c
      · have hkx : ¬ k = x := fun h => hk (hx ▸ h)
        simp only [if_neg hkx, if_pos hx]
      · simp [hx]

lemma newest_id_eq (items : List Item) (first : Item) (rest : List Item)
    (ls : Option String) (hitems : items = first :: rest) :
    (announcements_since_last items ls).2 = get_item_id first := by
  subst hitems
  cases ls <;> rfl

lemma diff_caught_up (items : List Item) (first : Item) (rest : List Item)
    (hitems : items = first :: rest) :
    announcements_since_last items (some (get_item_id first)) = ([], get_item_id first) := by
  subst hitems
  simp [announcements_since_last, collectUntil]

lemma dailyLoop_cons_none (send : Int → String → Bool) (items : List Item)
    (chat : Int) (restL : List Int) (ls : List (Int × String))
    (hl : mlookup ls chat = none) :
    dailyLoop send items (chat :: restL) ls =
      dailyLoop send items restL
        (minsert chat (announcements_since_last items none).2 ls) := by
  simp [dailyLoop, hl]

lemma dailyLoop_cons_some_ok (send : Int → String → Bool) (items : List Item)
    (chat : Int) (restL : List Int) (ls : List (Int × String)) (w : String)
    (hl : mlookup ls chat = some w)
    (hsr : (sendAll send chat (announcements_since_last items (some w)).1).2 = true) :
    dailyLoop send items (chat :: restL) ls =
      ((dailyLoop send items restL
          (minsert chat (announcements_since_last items (some w)).2 ls)).1,
        (sendAll send chat (announcements_since_last items (some w)).1).1 ++
          (dailyLoop send items restL
            (minsert chat (announcements_since_last items (some w)).2 ls)).2.1,
        (dailyLoop send items restL
          (minsert chat (announcements_since_last items (some w)).2 ls)).2.2) := by
  simp [dailyLoop, hl, hsr]

lemma dailyLoop_cons_some_fail (send : Int → String → Bool) (items : List Item)
    (chat : Int) (restL : List Int) (ls : List (Int × String)) (w : String)
    (hl : mlookup ls chat = some w)
    (hsr : (sendAll send chat (announcements_since_last items (some w)).1).2 = false) :
    dailyLoop send items (chat :: restL) ls =
      (ls, (sendAll send chat (announcements_since_last items (some w)).1).1, false) := by
  simp [dailyLoop, hl, hsr]

lemma dailyLoop_preserve (send : Int → String → Bool) (items : List Item)
    (first : Item) (rest : List Item) (hitems : items = first :: rest)
    (l : List Int) :
    ∀ (ls : List (Int × String)) (c : Int),
      mlookup ls c = some (get_item_id first) →
      mlookup (dailyLoop send items l ls).1 c = some (get_item_id first) := by
  induction l with
  | nil => intro ls c h; exact h
  | cons chat restL ih =>
    intro ls c h
    have hins : mlookup (minsert chat (get_item_id first) ls) c = some (get_item_id first) := by
      rw [mlookup_minsert]
      by_cases hc : c = chat
      · simp [hc]
      · simp [hc, h]
    cases hl : mlookup ls chat with
    | none =>
      rw [dailyLoop_cons_none send items chat restL ls hl,
        newest_id_eq items first rest none hitems]
      exact ih _ c hins
    | some w =>
      by_cases hsr : (sendAll send chat (announcements_since_last items (some w)).1).2 = true
      · rw [dailyLoop_cons_some_ok send items chat restL ls w hl hsr,
          newest_id_eq items first rest (some w) hitems]
        exact ih _ c hins
      · rw [Bool.not_eq_true] at hsr
        rw [dailyLoop_cons_some_fail send items chat restL ls w hl hsr]
        exact h

lemma dailyLoop_complete (send : Int → String → Bool) (items : List Item)
    (first : Item) (rest : List Item) (hitems : items = first :: rest)
    (l : List Int) :
    ∀ (ls : List (Int × String)),
      (dailyLoop send items l ls).2.2 = true →
      ∀ c ∈ l, mlookup (dailyLoop send items l ls).1 c = some (get_item_id first) := by
  induction l with
  | nil => intro ls _ c hc; exact absurd hc (List.not_mem_nil c)
  | cons chat restL ih =>
    intro ls hok c hc
    have hself : mlookup (minsert chat (get_item_id first) ls) chat
        = some (get_item_id first) := by
      rw [mlookup_minsert]; simp
    cases hl : mlookup ls chat with
    | none =>
      rw [dailyLoop_cons_none send items chat restL ls hl,
        newest_id_eq items first rest none hitems] at hok ⊢
      rcases List.mem_cons.mp hc with hceq | hcr
      · subst hceq
        exact dailyLoop_preserve send items first rest hitems restL _ _ hself
      · exact ih _ hok c hcr
    | some w =>
      by_cases hsr : (sendAll send chat (announcements_since_last items (some w)).1).2 = true
      · rw [dailyLoop_cons_some_ok send items chat restL ls w hl hsr,
          newest_id_eq items first rest (some w) hitems] at hok ⊢
        rcases List.mem_cons.mp hc with hceq | hcr
        · subst hceq
          exact dailyLoop_preserve send items first rest hitems restL _ _ hself
        · exact ih _ hok c hcr
      · rw [Bool.not_eq_true] at hsr
        rw [dailyLoop_cons_some_fail send items chat restL ls w hl hsr] at hok
        exact absurd hok (by simp)

lemma dailyLoop_caught_up (send : Int → String → Bool) (items : List Item)
    (first : Item) (rest : List Item) (hitems : items = first :: rest)
    (l : List Int) :
    ∀ (ls : List (Int × String)),
      (∀ c ∈ l, mlookup ls c = some (get_item_id first)) →
      (dailyLoop send items l ls).2.1 = [] ∧
      (dailyLoop send items l ls).2.2 = true ∧
      ∀ x, mlookup (dailyLoop send items l ls).1 x = mlookup ls x := by
  induction l with
  | nil => intro ls _; exact ⟨rfl, rfl, fun x => rfl⟩
  | cons chat restL ih =>
    intro ls hall
    have hl : mlookup ls chat = some (get_item_id first) := hall chat (List.mem_cons_self _ _)
    have hdiff : announcements_since_last items (some (get_item_id first)) =
        ([], get_item_id first) := diff_caught_up items first rest hitems
    have hsr : (sendAll send chat
        (announcements_since_last items (some (get_item_id first))).1).2 = true := by
      rw [hdiff]; rfl
    have heq := dailyLoop_cons_some_ok send items chat restL ls (get_item_id first) hl hsr
    rw [hdiff] at heq
    have hstep : ∀ c ∈ restL, mlookup (minsert chat (get_item_id first) ls) c =
        some (get_item_id first) := by
      intro c hc
      rw [mlookup_minsert]
      by_cases hcch : c = chat
      · simp [hcch]
      · simp [hcch, hall c (List.mem_cons_of_mem _ hc)]
    have hrec := ih (minsert chat (get_item_id first) ls) hstep
    rw [heq]
    have hsnil : (sendAll send chat
        (([] : List Item), get_item_id first).1).1 = [] := rfl
    refine ⟨by rw [hsnil, List.nil_append]; exact hrec.1, hrec.2.1, fun x => ?_⟩
    rw [hrec.2.2 x, mlookup_minsert]
    by_cases hx : x = chat
    · subst hx; simp [hl]
    · simp [hx]

def cSend : Int → String → Bool := fun c _ => c == 2
def cItemNew : Item := { id := some "new", title := some "N" }
def cItemOld : Item := { id := some "old", title := some "O" }
def cState : BotState := ⟨[1, 2], [(1, "old"), (2, "old")], []⟩

/-- Counterexample to C3: in a scheduled cycle over watching chats `[1, 2]`
(both with marker `"old"`) and batch `[new, old]`, the send to chat 1
raises.  The claim says chat 1's marker is still advanced to `"new"`, chat
2 is still processed, and the end-of-cycle persist occurs; in fact the
cycle aborts: both markers stay `"old"`, chat 2 receives nothing, and
nothing is saved — only a cycle-level log line is produced. -/
theorem daily_send_failure_counterexample :
    mlookup (daily_job cSend (.ok [cItemNew, cItemOld]) cState).1.lastSeen 1
      = some "old" ∧
    (daily_job cSend (.ok [cItemNew, cItemOld]) cState).2
      = [Ev.logged "Daily job error"] ∧
    Ev.saved ∉ (daily_job cSend (.ok [cItemNew, cItemOld]) cState).2 ∧
    mlookup (daily_job cSend (.ok [cItemNew, cItemOld]) cState).1.lastSeen 2
      = some "old" := by
  refine ⟨by decide, by decide, by decide, by decide⟩

/-- C3 (amended): when the send of the first new item to the first watching
subscriber (who has a prior marker) raises, `daily_job` aborts the whole
cycle: the exception is caught and logged once at cycle level and not
retried, but the subscriber's marker is not updated, the remaining
subscribers are not processed, and the end-of-cycle persist does not
happen — the state is returned exactly as it was. -/
theorem daily_send_failure_aborts (send : Int → String → Bool)
    (items : List Item) (first : Item) (restI : List Item)
    (st : BotState) (c1 : Int) (cs : List Int) (l : String)
    (it0 : Item) (its : List Item)
    (hitems : items = first :: restI)
    (hwatch : st.watching = c1 :: cs)
    (hlast : mlookup st.lastSeen c1 = some l)
    (hnew : (announcements_since_last items (some l)).1 = it0 :: its)
    (hfail : send c1 (format_announcement it0) = false) :
    daily_job send (.ok items) st = (st, [Ev.logged "Daily job error"]) := by
  have hsr : (sendAll send c1 (announcements_since_last items (some l)).1).2 = false := by
    rw [hnew]
    simp [sendAll, hfail]
  have hsr1 : (sendAll send c1 (announcements_since_last items (some l)).1).1 = [] := by
    rw [hnew]
    simp [sendAll, hfail]
  have hwne : ¬ st.watching = [] := by rw [hwatch]; exact List.cons_ne_nil _ _
  have hine : ¬ items = [] := by rw [hitems]; exact List.cons_ne_nil _ _
  have hloop : dailyLoop send items st.watching st.lastSeen
      = (st.lastSeen, [], false) := by
    rw [hwatch, dailyLoop_cons_some_fail send items c1 cs st.lastSeen l hlast hsr, hsr1]
  simp only [daily_job, if_neg hwne, if_neg hine, hloop]
  rfl

/-- Witness for the amended C3 at the counterexample input. -/
theorem daily_send_failure_aborts_witness :
    daily_job cSend (.ok [cItemNew, cItemOld]) cState
      = (cState, [Ev.logged "Daily job error"]) :=
  daily_send_failure_aborts cSend [cItemNew, cItemOld] cItemNew [cItemOld]
    cState 1 [2] "old" cItemNew [] rfl rfl (by decide) (by decide) (by decide)

lemma notifyLoop_success (send : Int → String → Bool) (l : List Int) :
    ∀ n : List Int, l.Nodup → (∀ c ∈ l, c ∉ n) →
      (∀ c ∈ l, send c expiredText = true) →
      notifyLoop send l n =
        (n ++ l, l.map (fun c => Ev.sent c expiredText), true) := by
  induction l with
  | nil => intro n _ _ _; simp [notifyLoop]
  | cons c restL ih =>
    intro n hnd hdisj hs
    have hcn : c ∉ n := hdisj c (List.mem_cons_self _ _)
    have hsadd : sadd c n = n ++ [c] := by simp [sadd, hcn]
    have hrec := ih (n ++ [c]) hnd.of_cons
      (fun c' hc' => by
        simp only [List.mem_append, List.mem_singleton, not_or]
        exact ⟨hdisj c' (List.mem_cons_of_mem _ hc'),
          fun he => (List.nodup_cons.mp hnd).1 (he ▸ hc')⟩)
      (fun c' hc' => hs c' (List.mem_cons_of_mem _ hc'))
    simp only [notifyLoop, if_neg hcn, hsadd, hs c (List.mem_cons_self _ _), if_true,
      hrec, List.map_cons]
    simp [List.append_assoc]

/-- C4: when the daily fetch fails with `AuthExpired` and no watching chat
has been expiry-notified yet, the cycle logs the failure and then sends
exactly one notice per watching chat (in registry order), marks each of
them expiry-notified, clears `WATCHING` entirely, and persists; a second
`AuthExpired` cycle then produces no events at all — in particular zero
further notices. -/
theorem auth_expired_circuit_breaker (send : Int → String → Bool) (st : BotState)
    (hne : st.watching ≠ [])
    (hnd : st.watching.Nodup)
    (hdisj : ∀ c ∈ st.watching, c ∉ st.cookieExpiredNotified)
    (hs : ∀ c ∈ st.watching, send c expiredText = true) :
    (daily_job send .authExpired st).2 =
      Ev.logged "Daily job: WQ auth expired" ::
        (st.watching.map (fun c => Ev.sent c expiredText) ++ [Ev.saved]) ∧
    (daily_job send .authExpired st).1.watching = [] ∧
    (∀ c ∈ st.watching,
      c ∈ (daily_job send .authExpired st).1.cookieExpiredNotified) ∧
    (daily_job send .authExpired (daily_job send .authExpired st).1).2 = [] := by
  have hloop := notifyLoop_success send st.watching st.cookieExpiredNotified hnd hdisj hs
  have hjob : daily_job send .authExpired st =
      (⟨[], st.lastSeen, st.cookieExpiredNotified ++ st.watching⟩,
        Ev.logged "Daily job: WQ auth expired" ::
          (st.watching.map (fun c => Ev.sent c expiredText) ++ [Ev.saved])) := by
    simp only [daily_job, if_neg hne, notify_cookie_expired, hloop]
    rfl
  rw [hjob]
  refine ⟨rfl, rfl, fun c hc => List.mem_append_right _ hc, ?_⟩
  simp [daily_job]

def wSend : Int → String → Bool := fun _ _ => true
def wState4 : BotState := ⟨[1, 2, 3], [], []⟩

/-- Witness for C4 with three watching chats: three notices are sent,
the registry empties, chat 2 is marked notified, and a second failing
cycle produces nothing. -/
theorem auth_expired_circuit_breaker_witness :
    (daily_job wSend .authExpired wState4).2 =
      Ev.logged "Daily job: WQ auth expired" ::
        (wState4.watching.map (fun c => Ev.sent c expiredText) ++ [Ev.saved]) ∧
    (daily_job wSend .authExpired wState4).1.watching = [] ∧
    (2 : Int) ∈ (daily_job wSend .authExpired wState4).1.cookieExpiredNotified ∧
    (daily_job wSend .authExpired (daily_job wSend .authExpired wState4).1).2 = [] := by
  have h := auth_expired_circuit_breaker wSend wState4 (by decide) (by decide)
    (by decide) (by decide)
  exact ⟨h.1, h.2.1, h.2.2.1 2 (by decide), h.2.2.2⟩

/-- C6: running the scheduled cycle twice on the same non-empty batch,
where the first run completed its per-subscriber loop, makes the second
run send nothing: for a chat that was watching with a prior marker before
the first run, no message is sent to it in the second run and its marker
is unchanged from its post-first-run value. -/
theorem daily_cycle_idempotent (send : Int → String → Bool) (items : List Item)
    (first : Item) (restI : List Item) (st : BotState) (c : Int) (l0 : String)
    (hitems : items = first :: restI)
    (hok : (dailyLoop send items st.watching st.lastSeen).2.2 = true)
    (hc : c ∈ st.watching) (hl : mlookup st.lastSeen c = some l0) :
    (∀ t, Ev.sent c t ∉ (daily_job send (.ok items) (daily_job send (.ok items) st).1).2) ∧
    mlookup (daily_job send (.ok items) (daily_job send (.ok items) st).1).1.lastSeen c
      = mlookup (daily_job send (.ok items) st).1.lastSeen c := by
  have hwne : ¬ st.watching = [] := fun h => by rw [h] at hc; exact List.not_mem_nil c hc
  have hine : ¬ items = [] := by rw [hitems]; exact List.cons_ne_nil _ _
  have hrun1 : daily_job send (.ok items) st =
      (⟨st.watching, (dailyLoop send items st.watching st.lastSeen).1,
          st.cookieExpiredNotified⟩,
        (dailyLoop send items st.watching st.lastSeen).2.1 ++ [Ev.saved]) := by
    simp only [daily_job, if_neg hwne, if_neg hine, hok, if_true]
  have hall : ∀ c' ∈ st.watching,
      mlookup (dailyLoop send items st.watching st.lastSeen).1 c'
        = some (get_item_id first) :=
    dailyLoop_complete send items first restI hitems st.watching st.lastSeen hok
  have hcu := dailyLoop_caught_up send items first restI hitems st.watching
    (dailyLoop send items st.watching st.lastSeen).1 hall
  have hrun2 : daily_job send (.ok items) (daily_job send (.ok items) st).1 =
      (⟨st.watching,
          (dailyLoop send items st.watching
            (dailyLoop send items st.watching st.lastSeen).1).1,
          st.cookieExpiredNotified⟩,
        [Ev.saved]) := by
    rw [hrun1]
    simp only [daily_job, if_neg hwne, if_neg hine, hcu.2.1, if_true, hcu.1,
      List.nil_append]
  rw [hrun2, hrun1]
  exact ⟨fun t => by simp, hcu.2.2 c⟩

def wState6 : BotState := ⟨[5], [(5, "2")], []⟩

/-- Witness for C6: one watching chat with marker `"2"` and batch with ids
`["3","2"]`; after the first run the second run sends nothing to the chat
and leaves its marker where the first run put it. -/
theorem daily_cycle_idempotent_witness :
    Ev.sent 5 (format_announcement wItemA) ∉
      (daily_job wSend (.ok [wItemA, wItemB]) (daily_job wSend (.ok [wItemA, wItemB]) wState6).1).2 ∧
    mlookup (daily_job wSend (.ok [wItemA, wItemB])
        (daily_job wSend (.ok [wItemA, wItemB]) wState6).1).1.lastSeen 5
      = mlookup (daily_job wSend (.ok [wItemA, wItemB]) wState6).1.lastSeen 5 := by
  have h := daily_cycle_idempotent wSend [wItemA, wItemB] wItemA [wItemB] wState6 5 "2"
    rfl (by decide) (by decide) (by decide)
  exact ⟨h.1 (format_announcement wItemA), h.2⟩

/-- A scalar from the persisted JSON as Python's `int()` sees it: either a
value `int()` converts, or one on which `int()` raises. -/
inductive Tok
  | goodInt (n : Int)
  | bad
deriving DecidableEq, Repr

/-- The decoded JSON object of the state file (values of `last_seen` go
through `str()`, which never fails, so they are plain strings). -/
structure RawState where
  watching : List Tok
  last_seen : List (Tok × String)
  cookie_expired_notified : List Tok
deriving DecidableEq, Repr

/-- What the state file on disk yields: absent, unreadable/unparsable
(`open`/`json.load` raises), or a decoded object. -/
inductive FileOutcome
  | missing
  | readError
  | parsed (raw : RawState)
deriving DecidableEq, Repr

def tokInt : Tok → Option Int
  | .goodInt n => some n
  | .bad => none

/-- `set(int(x) for x in l)`: fails if any conversion fails, else dedups. -/
def convSet (l : List Tok) : Option (List Int) :=
  (l.mapM tokInt).map (fun xs => xs.foldl (fun acc x => sadd x acc) [])

/-- `{int(k): str(v) for k, v in d.items()}`: fails if any key conversion
fails, else builds the mapping with later keys overwriting earlier ones. -/
def convMap (l : List (Tok × String)) : Option (List (Int × String)) :=
  (l.mapM (fun kv => (tokInt kv.1).map (fun k => (k, kv.2)))).map
    (fun ps => ps.foldl (fun acc p => minsert p.1 p.2 acc) [])

/-- `load_state` (src/main.py:63-74): missing file returns silently; a
read/parse failure is caught and logged; then each global is assigned in
turn (`WATCHING`, `LAST_SEEN`, `COOKIE_EXPIRED_NOTIFIED`), and a
conversion failure aborts at that point — globals assigned before the
failing one keep their new values, the rest keep their old ones — and is
caught and logged.  No exception ever propagates. -/
def load_state (d : FileOutcome) (st : BotState) : BotState × List Ev :=
  match d with
  | .missing => (st, [])
  | .readError => (st, [Ev.logged "State load error"])
  | .parsed raw =>
    match convSet raw.watching with
    | none => (st, [Ev.logged "State load error"])
    | some w =>
      match convMap raw.last_seen with
      | none => ({ st with watching := w }, [Ev.logged "State load error"])
      | some ls =>
        match convSet raw.cookie_expired_notified with
        | none => ({ st with watching := w, lastSeen := ls },
            [Ev.logged "State load error"])
        | some cn => (⟨w, ls, cn⟩, [])

def defaultState : BotState := ⟨[], [], []⟩

def c8raw : RawState := ⟨[.goodInt 1], [(.bad, "x")], []⟩

/-- Counterexample to C8: a state file whose `watching` list converts but
whose `last_seen` keys do not.  The claim says every failing on-disk
condition leaves the state at the empty defaults; in fact `WATCHING` has
already been assigned `[1]` when the `last_seen` conversion raises, so the
final state is not the empty defaults (the error is still logged and
nothing propagates). -/
theorem load_state_counterexample :
    (load_state (.parsed c8raw) defaultState).1.watching = [1] ∧
    (load_state (.parsed c8raw) defaultState).1 ≠ defaultState ∧
    (load_state (.parsed c8raw) defaultState).2 = [Ev.logged "State load error"] := by
  refine ⟨by decide, by decide, by decide⟩

/-- C8 (amended): `load_state` is total (never propagates an exception).
A missing or unreadable/corrupt file leaves the whole state unchanged (the
empty defaults at startup), logging unless the file was absent.  When the
file parses but a field conversion fails, the error is logged and the
fields from the failing conversion onwards keep their prior values —
though fields converted before the failure remain assigned. -/
theorem load_state_fallback (d : FileOutcome) (st : BotState) :
    ((d = .missing ∨ d = .readError) → (load_state d st).1 = st) ∧
    (d = .readError → (load_state d st).2 = [Ev.logged "State load error"]) ∧
    (∀ raw, d = .parsed raw → convSet raw.watching = none →
      (load_state d st).1 = st ∧
      (load_state d st).2 = [Ev.logged "State load error"]) ∧
    (∀ raw, d = .parsed raw → convMap raw.last_seen = none →
      (load_state d st).1.lastSeen = st.lastSeen ∧
      (load_state d st).1.cookieExpiredNotified = st.cookieExpiredNotified ∧
      (load_state d st).2 = [Ev.logged "State load error"]) ∧
    (∀ raw, d = .parsed raw → convSet raw.cookie_expired_notified = none →
      (load_state d st).1.cookieExpiredNotified = st.cookieExpiredNotified ∧
      (load_state d st).2 = [Ev.logged "State load error"]) := by
  refine ⟨?_, ?_, ?_, ?_, ?_⟩
  · intro h
    rcases h with h | h <;> subst h <;> rfl
  · intro h; subst h; rfl
  · intro raw h hw
    subst h
    simp [load_state, hw]
  · intro raw h hm
    subst h
    cases hw : convSet raw.watching with
    | none => simp [load_state, hw]
    | some w => simp [load_state, hw, hm]
  · intro raw h hn
    subst h
    cases hw : convSet raw.watching with
    | none => simp [load_state, hw]
    | some w =>
      cases hm : convMap raw.last_seen with
      | none => simp [load_state, hw, hm]
      | some ls => simp [load_state, hw, hm, hn]

/-- Witness for the amended C8 at the counterexample's file: the
`last_seen` conversion fails, so `LAST_SEEN` and the notified set keep
their defaults and the error is logged. -/
theorem load_state_fallback_witness :
    (load_state (.parsed c8raw) defaultState).1.lastSeen = defaultState.lastSeen ∧
    (load_state (.parsed c8raw) defaultState).1.cookieExpiredNotified
      = defaultState.cookieExpiredNotified ∧
    (load_state (.parsed c8raw) defaultState).2 = [Ev.logged "State load error"] :=
  (load_state_fallback (.parsed c8raw) defaultState).2.2.2.1 c8raw rfl (by decide)
